import Mathlib

/-!
Shallow embedding of the salesforce_extraction client
(src/helper_functions.py, src/salesforce_authentication.py,
src/salesforce_rest_api.py) and proofs about it.

Python strings are modelled as `String` (or `List Char` where character-wise
reasoning is needed), JSON records as association lists, the HTTP layer as
explicit response-valued functions, `os.environ` as `String → Option String`,
and raised exceptions as `Except` errors carrying the interpolated data.
-/

namespace SF

/-- A JSON record: an ordered mapping from field name to (opaque) value,
as returned inside the `records` list of a query response. -/
abbrev Record := List (String × String)

/-- Exceptions the client can raise, with the data interpolated into each
Python exception message carried structurally. -/
inductive SfError where
  | configurationMissing (key : String)
  | authenticationFailed (status : Nat) (body : String)
  | queryInvalid
  | queryFailed (status : Nat) (body : String)
  | describeFailed (status : Nat) (body : String)
  | xmlParseError
  | keyError (key : String)
  | outOfFuel
  deriving DecidableEq

/-! Definitions for helper_functions.py -/

/-- Model of `get_nested_values(key, data)`: `[d[key] for d in data]`; a
missing key raises `KeyError` in Python, modelled as an error. -/
def get_nested_values (key : String) (data : List (List (String × String))) :
    Except SfError (List String) :=
  data.mapM fun d =>
    match d.find? (fun kv => kv.1 == key) with
    | some kv => Except.ok kv.2
    | none => Except.error (SfError.keyError key)

/-- Model of Python's `str.upper()` on the ASCII configuration names this
client uses. -/
def str_upper (s : String) : String := String.mk (s.data.map Char.toUpper)

/-- Model of `get_credentials(integration)`: reads the three environment
keys `<INTEGRATION>_PASSWORD`, `<INTEGRATION>_USERNAME`,
`<INTEGRATION>_SECURITY_TOKEN` (in the evaluation order of the Python dict
literal) and returns the credentials mapping; `os.environ[...]` on a
missing key raises `KeyError`. -/
def get_credentials (env : String → Option String) (integration : String) :
    Except SfError (List (String × String)) :=
  match env (str_upper integration ++ "_PASSWORD") with
  | none => Except.error (SfError.configurationMissing (str_upper integration ++ "_PASSWORD"))
  | some p =>
    match env (str_upper integration ++ "_USERNAME") with
    | none => Except.error (SfError.configurationMissing (str_upper integration ++ "_USERNAME"))
    | some u =>
      match env (str_upper integration ++ "_SECURITY_TOKEN") with
      | none => Except.error (SfError.configurationMissing (str_upper integration ++ "_SECURITY_TOKEN"))
      | some t =>
        Except.ok [(integration ++ "_password", p),
                   (integration ++ "_username", u),
                   (integration ++ "_security_token", t)]

/-! Definitions for salesforce_rest_api.py: the query builder -/

/-- Python truthiness of an optional list argument (`not fields` is true
for `None` and for `[]`). -/
def listTruthy : Option (List String) → Bool
  | none => false
  | some fs => !fs.isEmpty

/-- Python truthiness of an optional integer argument (`not limit` is true
for `None` and for `0`). -/
def intTruthy : Option Int → Bool
  | none => false
  | some n => n != 0

/-- Model of `get_query(object_name, fields=None, limit=None)` from
src/salesforce_rest_api.py lines 33-48. -/
def get_query (object_name : String) (fields : Option (List String))
    (limit : Option Int) : Except SfError String :=
  if !listTruthy fields && !intTruthy limit then
    Except.error SfError.queryInvalid
  else
    let fields_string :=
      if listTruthy fields then String.intercalate "," (fields.getD [])
      else "FIELDS(ALL)"
    let limit_string :=
      if intTruthy limit then "+LIMIT+" ++ toString (limit.getD 0) else ""
    Except.ok ("queryAll/?q=SELECT+" ++ fields_string ++ "+FROM+" ++
               object_name ++ limit_string)

/-! Definitions for salesforce_rest_api.py: the REST query executor -/

/-- Parsed JSON body and status of one response to a `queryAll` GET.
`records = none` models a JSON body with no `records` key (the code uses
`data.get("records", [])`); `nextRecordsUrl = none` models absence of the
pagination cursor key. -/
structure QueryResponse where
  status : Nat
  text : String
  records : Option (List Record)
  nextRecordsUrl : Option String
  deriving DecidableEq

/-- URL built by `get_rest_query_results` (lines 62-66). When no cursor is
active, the Python f-string literal is continued with a backslash at the
end of line 63: the one space before the backslash and the 16-space
indentation of line 64 are part of the literal, so 17 spaces stand between
the base URL and `/services/data/v60.0/`. -/
def query_url (base query : String) : Option String → String
  | none => base ++ " " ++ "                " ++ "/services/data/v60.0/" ++ query
  | some next_url => base ++ next_url

/-- Model of `get_rest_query_results(query, next_url=None)` (lines 51-90).
`http url sid` is the response to the GET of `url` with bearer `sid`;
`sessions j` is the value returned by the j-th call to `fetch_session_id()`
(the code invokes `fetch_session_id()` inside every page's request headers)
and `k` counts the calls made so far, so the returned counter equals the
total number of session-id fetches. `fuel` bounds the recursion depth so
the function is total; every finite pagination chain is reached with enough
fuel. -/
def get_rest_query_results (fuel : Nat) (http : String → String → QueryResponse)
    (sessions : Nat → String) (base query : String) (next_url : Option String)
    (k : Nat) : Except SfError (List Record × Nat) :=
  match fuel with
  | 0 => Except.error SfError.outOfFuel
  | fuel + 1 =>
    let url := query_url base query next_url
    let response := http url (sessions k)
    if response.status ≠ 200 then
      Except.error (SfError.queryFailed response.status response.text)
    else
      let records := response.records.getD []
      match response.nextRecordsUrl with
      | some nu =>
        match get_rest_query_results fuel http sessions base query (some nu) (k + 1) with
        | Except.ok (next_records, k2) => Except.ok (records ++ next_records, k2)
        | Except.error e => Except.error e
      | none => Except.ok (records, k + 1)

/-! Definitions for salesforce_rest_api.py: field discovery and the public
entry point -/

/-- Status and parsed JSON of the describe endpoint's response; `fields` is
the response's `fields` list of objects. -/
structure DescribeResponse where
  status : Nat
  text : String
  fields : List (List (String × String))
  deriving DecidableEq

/-- Model of `get_field_names(object_name)` (lines 93-111), with the HTTP
exchange abstracted to the describe response it yields. -/
def get_field_names (resp : DescribeResponse) : Except SfError (List String) :=
  if resp.status ≠ 200 then
    Except.error (SfError.describeFailed resp.status resp.text)
  else
    get_nested_values "name" resp.fields

/-- Dict comprehension `if k != "attributes"` applied to one raw record
(lines 25-28). -/
def strip_attributes (r : Record) : Record :=
  r.filter fun kv => kv.1 != "attributes"

/-- Model of `get_records_list(object_name, fields=None, limit=None)`
(lines 11-28), the public entry point: optional field discovery, query
construction, the paginated fetch, and the removal of each record's
`attributes` key. -/
def get_records_list (fuel : Nat) (http : String → String → QueryResponse)
    (describe : DescribeResponse) (sessions : Nat → String) (base : String)
    (object_name : String) (fields : Option (List String)) (limit : Option Int) :
    Except SfError (List Record) := do
  let fields ←
    if !listTruthy fields && !intTruthy limit then
      match get_field_names describe with
      | Except.ok names => Except.ok (some names)
      | Except.error e => Except.error e
    else Except.ok fields
  let query ← get_query object_name fields limit
  let res ← get_rest_query_results fuel http sessions base query none 0
  Except.ok (res.1.map strip_attributes)

/-! Definitions for salesforce_authentication.py: escaping -/

/-- Entity text a single character contributes under `escape_chars`
(lines 32-41): `xml.sax.saxutils.escape` replaces `&`, then `>`, then `<`,
and the extra entities map replaces `'` and `"`. -/
def escEnt (c : Char) : List Char :=
  if c = '&' then ['&', 'a', 'm', 'p', ';']
  else if c = '>' then ['&', 'g', 't', ';']
  else if c = '<' then ['&', 'l', 't', ';']
  else if c = '\'' then ['&', 'a', 'p', 'o', 's', ';']
  else if c = '"' then ['&', 'q', 'u', 'o', 't', ';']
  else [c]

/-- Model of `escape_chars(string)` (lines 32-41). Because `&` is replaced
first and no inserted entity text contains a later-replaced character, the
sequential `str.replace` passes coincide with this single character-wise
pass. -/
def escape_chars : List Char → List Char
  | [] => []
  | c :: rest => escEnt c ++ escape_chars rest

/-- Recognizer for a predefined-entity tail right after a `&`: returns the
decoded character and the rest of the input. -/
def entityHead : List Char → Option (Char × List Char)
  | 'a' :: 'm' :: 'p' :: ';' :: r => some ('&', r)
  | 'l' :: 't' :: ';' :: r => some ('<', r)
  | 'g' :: 't' :: ';' :: r => some ('>', r)
  | 'a' :: 'p' :: 'o' :: 's' :: ';' :: r => some ('\'', r)
  | 'q' :: 'u' :: 'o' :: 't' :: ';' :: r => some ('"', r)
  | _ => none

/-- Standard XML unescaping of the five predefined entities: each `&` that
begins a predefined entity reference is decoded back to its character, as a
standards-compliant XML parser would. -/
def xml_unescape : List Char → List Char
  | [] => []
  | '&' :: rest =>
    match hm : entityHead rest with
    | some (c, r) => c :: xml_unescape r
    | none => '&' :: xml_unescape rest
  | c :: rest => c :: xml_unescape rest
  termination_by l => l.length
  decreasing_by
    · unfold entityHead at hm
      split at hm <;> simp_all <;> omega
    · simp
    · simp

/-! Definitions for salesforce_authentication.py: the login response -/

/-- A parsed XML element as ElementTree yields it: the tag in Clark
notation (`\x7bnamespace-uri\x7dlocalname`), the child elements in document
order, and the element's text (absent for an empty element). -/
inductive XmlElem where
  | mk (tag : String) (children : List XmlElem) (text : Option String)

def XmlElem.tag : XmlElem → String
  | XmlElem.mk t _ _ => t

def XmlElem.children : XmlElem → List XmlElem
  | XmlElem.mk _ cs _ => cs

def XmlElem.text : XmlElem → Option String
  | XmlElem.mk _ _ tx => tx

/-- All proper descendants of an element, in document order (what the `.//`
step of an ElementTree path ranges over). -/
def descendants : XmlElem → List XmlElem
  | XmlElem.mk _ cs _ => cs.attach.flatMap fun c => c.1 :: descendants c.1
  decreasing_by
    have h := List.sizeOf_lt_of_mem c.2
    simp only [XmlElem.mk.sizeOf_spec]
    omega

/-- Children of `e` whose (namespace-qualified) tag is `tag`. -/
def childrenTagged (tag : String) (e : XmlElem) : List XmlElem :=
  e.children.filter fun c => c.tag == tag

def envelopeTag : String :=
  "\x7bhttp://schemas.xmlsoap.org/soap/envelope/\x7dEnvelope"

def bodyTag : String :=
  "\x7bhttp://schemas.xmlsoap.org/soap/envelope/\x7dBody"

def loginResponseTag : String :=
  "\x7burn:partner.soap.sforce.com\x7dloginResponse"

def resultTag : String :=
  "\x7burn:partner.soap.sforce.com\x7dresult"

def sessionIdTag : String :=
  "\x7burn:partner.soap.sforce.com\x7dsessionId"

/-- Elements matched by
`root.find('.//soapenv:Body/ns:loginResponse/ns:result/ns:sessionId', namespaces)`
(lines 90-97): any descendant `Body`, then child `loginResponse`, child
`result`, child `sessionId`; `find` returns the head of this list. -/
def findSessionPath (root : XmlElem) : List XmlElem :=
  ((descendants root).filter fun e => e.tag == bodyTag).flatMap fun b =>
    (childrenTagged loginResponseTag b).flatMap fun lr =>
      (childrenTagged resultTag lr).flatMap fun r =>
        childrenTagged sessionIdTag r

/-- Model of `extract_session_id(xml_str)` (lines 82-103) on an
already-parsed body: returns the found element's text, or `none` after
printing the warning `"sessionId not found in the response."`; the Bool
records whether the warning was printed. -/
def extract_session_id (root : XmlElem) : Option String × Bool :=
  match findSessionPath root with
  | e :: _ => (e.text, false)
  | [] => (none, true)

/-- Status, body text and parsed body of the SOAP login response;
`xml = none` models a body `ET.fromstring` cannot parse (a `ParseError`
would propagate). -/
structure LoginResponse where
  status : Nat
  text : String
  xml : Option XmlElem

/-- Model of `get_session_id(username, password, security_token)`
(lines 8-28) with the POST abstracted to the response it yields: non-200
raises, otherwise the session id is extracted from the parsed body
(possibly `none`, the soft failure). -/
def get_session_id (resp : LoginResponse) : Except SfError (Option String) :=
  if resp.status ≠ 200 then
    Except.error (SfError.authenticationFailed resp.status resp.text)
  else
    match resp.xml with
    | none => Except.error SfError.xmlParseError
    | some root => Except.ok (extract_session_id root).1

/-! A well-formed paginated server -/

/-- `Chain http base query cur pages` states that, starting from cursor
state `cur`, the server behind `http` answers the executor's URLs with the
given sequence of 200-status pages: each page carries its (possibly absent)
`records` list and its cursor, each cursor leads to the next page, and the
last page has no cursor. The response may not depend on the session id
presented. -/
inductive Chain (http : String → String → QueryResponse) (base query : String) :
    Option String → List (Option (List Record) × Option String) → Prop where
  | last (cur : Option String) (recs : Option (List Record)) (txt : String)
      (h : ∀ sid, http (query_url base query cur) sid =
        { status := 200, text := txt, records := recs, nextRecordsUrl := none }) :
      Chain http base query cur [(recs, none)]
  | step (cur : Option String) (recs : Option (List Record)) (txt : String)
      (nu : String) (rest : List (Option (List Record) × Option String))
      (h : ∀ sid, http (query_url base query cur) sid =
        { status := 200, text := txt, records := recs, nextRecordsUrl := some nu })
      (hrest : Chain http base query (some nu) rest) :
      Chain http base query cur ((recs, some nu) :: rest)

/-! Concrete two-page scenario from the specification: page 1 holds records
A and B and the cursor `/cursor2`, page 2 (fetched at that cursor) holds
record C and no cursor. -/

def base2 : String := "https://example.my.salesforce.com"

def q2 : String := "queryAll/?q=SELECT+Id,Name+FROM+Account"

def recA : Record := [("attributes", "Account"), ("Id", "001A"), ("Name", "Alice")]

def recB : Record := [("attributes", "Account"), ("Id", "001B"), ("Name", "Bob")]

def recC : Record := [("attributes", "Account"), ("Id", "001C"), ("Name", "Carol")]

def http2 : String → String → QueryResponse := fun url _ =>
  if url = query_url base2 q2 none then
    { status := 200, text := "", records := some [recA, recB], nextRecordsUrl := some "/cursor2" }
  else if url = base2 ++ "/cursor2" then
    { status := 200, text := "", records := some [recC], nextRecordsUrl := none }
  else
    { status := 404, text := "missing", records := none, nextRecordsUrl := none }

def sessions0 : Nat → String := fun _ => "SID"

def describe0 : DescribeResponse := { status := 200, text := "", fields := [] }

/-- An HTTP layer whose every response is a 401 failure. -/
def http401 : String → String → QueryResponse := fun _ _ =>
  { status := 401, text := "Session expired or invalid", records := none, nextRecordsUrl := none }

/-- A well-formed login response body that carries no sessionId node. -/
def sampleNoSession : XmlElem :=
  XmlElem.mk envelopeTag
    [XmlElem.mk bodyTag
      [XmlElem.mk loginResponseTag
        [XmlElem.mk resultTag [] none] none] none] none

/-- An environment holding exactly the three salesforce credential keys. -/
def env0 : String → Option String := fun k =>
  if k = "SALESFORCE_USERNAME" then some "user@example.com"
  else if k = "SALESFORCE_PASSWORD" then some "hunter2"
  else if k = "SALESFORCE_SECURITY_TOKEN" then some "tok123"
  else none

/-! Helper lemmas -/

/-- Running the executor against a well-formed page chain returns exactly
the concatenation of the pages' record lists (a missing `records` key
contributing the empty list), and performs one session-id fetch per page. -/
theorem chain_run {http : String → String → QueryResponse} {base query : String}
    {cur : Option String} {pages : List (Option (List Record) × Option String)}
    (sessions : Nat → String) (hc : Chain http base query cur pages) :
    ∀ fuel k, pages.length ≤ fuel →
      get_rest_query_results fuel http sessions base query cur k =
        Except.ok ((pages.map fun p => p.1.getD []).flatten, k + pages.length) := by
  induction hc with
  | last cur recs txt h =>
    intro fuel k hf
    match fuel, hf with
    | fuel + 1, _ =>
      simp only [get_rest_query_results, h (sessions k)]
      simp
  | step cur recs txt nu rest h hrest ih =>
    intro fuel k hf
    match fuel, hf with
    | fuel + 1, hf =>
      have hlen : rest.length ≤ fuel := by
        simpa using Nat.lt_succ_iff.mp (Nat.lt_of_lt_of_le (Nat.lt_succ_self _) hf)
      simp only [get_rest_query_results, h (sessions k)]
      rw [ih fuel (k + 1) hlen]
      simp [List.flatten]
      omega

theorem chain_http2 :
    Chain http2 base2 q2 none
      [(some [recA, recB], some "/cursor2"), (some [recC], none)] := by
  refine Chain.step none (some [recA, recB]) "" "/cursor2" _ (fun sid => rfl) ?_
  exact Chain.last (some "/cursor2") (some [recC]) "" (fun sid => rfl)

theorem unesc_amp (l : List Char) :
    xml_unescape ('&' :: 'a' :: 'm' :: 'p' :: ';' :: l) = '&' :: xml_unescape l := by
  rw [xml_unescape]
  rfl

theorem unesc_lt (l : List Char) :
    xml_unescape ('&' :: 'l' :: 't' :: ';' :: l) = '<' :: xml_unescape l := by
  rw [xml_unescape]
  rfl

theorem unesc_gt (l : List Char) :
    xml_unescape ('&' :: 'g' :: 't' :: ';' :: l) = '>' :: xml_unescape l := by
  rw [xml_unescape]
  rfl

theorem unesc_apos (l : List Char) :
    xml_unescape ('&' :: 'a' :: 'p' :: 'o' :: 's' :: ';' :: l) = '\'' :: xml_unescape l := by
  rw [xml_unescape]
  rfl

theorem unesc_quot (l : List Char) :
    xml_unescape ('&' :: 'q' :: 'u' :: 'o' :: 't' :: ';' :: l) = '"' :: xml_unescape l := by
  rw [xml_unescape]
  rfl

theorem unesc_cons (c : Char) (l : List Char) (h : c ≠ '&') :
    xml_unescape (c :: l) = c :: xml_unescape l := by
  rw [xml_unescape.eq_def]
  split
  · simp_all
  · simp_all
  · simp_all

theorem escEnt_other (c : Char) (h1 : c ≠ '&') (h2 : c ≠ '>') (h3 : c ≠ '<')
    (h4 : c ≠ '\'') (h5 : c ≠ '"') : escEnt c = [c] := by
  simp [escEnt, h1, h2, h3, h4, h5]

theorem unescape_escape (s : List Char) : xml_unescape (escape_chars s) = s := by
  induction s with
  | nil =>
    show xml_unescape [] = []
    rw [xml_unescape]
  | cons c rest ih =>
    simp only [escape_chars]
    by_cases h1 : c = '&'
    · subst h1
      rw [show escEnt '&' = ['&', 'a', 'm', 'p', ';'] from by decide]
      simp only [List.cons_append, List.nil_append, unesc_amp, ih]
    · by_cases h2 : c = '>'
      · subst h2
        rw [show escEnt '>' = ['&', 'g', 't', ';'] from by decide]
        simp only [List.cons_append, List.nil_append, unesc_gt, ih]
      · by_cases h3 : c = '<'
        · subst h3
          rw [show escEnt '<' = ['&', 'l', 't', ';'] from by decide]
          simp only [List.cons_append, List.nil_append, unesc_lt, ih]
        · by_cases h4 : c = '\''
          · subst h4
            rw [show escEnt '\'' = ['&', 'a', 'p', 'o', 's', ';'] from by decide]
            simp only [List.cons_append, List.nil_append, unesc_apos, ih]
          · by_cases h5 : c = '"'
            · subst h5
              rw [show escEnt '"' = ['&', 'q', 'u', 'o', 't', ';'] from by decide]
              simp only [List.cons_append, List.nil_append, unesc_quot, ih]
            · rw [escEnt_other c h1 h2 h3 h4 h5]
              simp only [List.cons_append, List.nil_append]
              rw [unesc_cons c _ h1, ih]

/-! Claim theorems -/

/-- C2: for every object name, non-empty field list and non-zero limit,
`get_query` returns
`queryAll/?q=SELECT+<comma-joined fields>+FROM+<object>+LIMIT+<limit>`;
with fields absent the wildcard `FIELDS(ALL)` is the field clause; the
limit clause is appended only when a limit is provided; and the concrete
example from the specification holds. -/
theorem get_query_builds_fragment :
    (∀ (o : String) (fs : List String) (n : Int), fs ≠ [] → n ≠ 0 →
      get_query o (some fs) (some n) =
        Except.ok ("queryAll/?q=SELECT+" ++ String.intercalate "," fs ++
          "+FROM+" ++ o ++ "+LIMIT+" ++ toString n))
    ∧ (∀ (o : String) (n : Int), n ≠ 0 →
      get_query o none (some n) =
        Except.ok ("queryAll/?q=SELECT+FIELDS(ALL)+FROM+" ++ o ++
          "+LIMIT+" ++ toString n))
    ∧ (∀ (o : String) (fs : List String), fs ≠ [] →
      get_query o (some fs) none =
        Except.ok ("queryAll/?q=SELECT+" ++ String.intercalate "," fs ++
          "+FROM+" ++ o))
    ∧ get_query "Account" (some ["Id", "Name"]) (some 10) =
        Except.ok "queryAll/?q=SELECT+Id,Name+FROM+Account+LIMIT+10" := by
  refine ⟨?_, ?_, ?_, rfl⟩
  · intro o fs n hfs hn
    have h1 : listTruthy (some fs) = true := by
      cases fs with
      | nil => exact absurd rfl hfs
      | cons a as => rfl
    have h2 : intTruthy (some n) = true := by simp [intTruthy, hn]
    simp [get_query, h1, h2, String.append_assoc]
  · intro o n hn
    have h2 : intTruthy (some n) = true := by simp [intTruthy, hn]
    simp [get_query, h2, listTruthy, String.append_assoc]
  · intro o fs hfs
    have h1 : listTruthy (some fs) = true := by
      cases fs with
      | nil => exact absurd rfl hfs
      | cons a as => rfl
    simp [get_query, h1, intTruthy]

/-- C2 witness: the theorem applied at concrete inputs. -/
theorem get_query_builds_fragment_witness :
    (["Id"] : List String) ≠ [] ∧ (5 : Int) ≠ 0 ∧
    get_query "Contact" (some ["Id"]) (some 5) =
      Except.ok ("queryAll/?q=SELECT+" ++ String.intercalate "," ["Id"] ++
        "+FROM+" ++ "Contact" ++ "+LIMIT+" ++ toString (5 : Int)) :=
  ⟨by decide, by decide,
   get_query_builds_fragment.1 "Contact" ["Id"] 5 (by decide) (by decide)⟩

/-- C6: `get_query` fails with the invalid-query error exactly when both
`fields` and `limit` are absent (in the interface's sense, where an empty
list or a zero limit counts as absent, as the code's truthiness test and
claim C10 fix); the specification's concrete example raises, and whenever
at least one argument is (non-emptily) supplied a query string is returned
without raising. -/
theorem get_query_invalid_iff :
    get_query "Account" none none = Except.error SfError.queryInvalid
    ∧ ∀ (o : String) (fields : Option (List String)) (limit : Option Int),
        (get_query o fields limit = Except.error SfError.queryInvalid ↔
          (listTruthy fields = false ∧ intTruthy limit = false))
        ∧ ((∃ s, get_query o fields limit = Except.ok s) ↔
          (listTruthy fields || intTruthy limit) = true) := by
  refine ⟨rfl, ?_⟩
  intro o fields limit
  cases hf : listTruthy fields <;> cases hl : intTruthy limit <;>
    simp [get_query, hf, hl]

/-- C10: an empty collection argument is treated the same as an absent one
at every decision point: `get_query` with `fields = []` raises exactly like
`fields = None`, behaves identically to `fields = None` for every limit,
`limit = 0` behaves identically to `limit = None`, and `get_records_list`
with `fields = []` and no limit triggers field discovery exactly as if
fields were `None`. -/
theorem empty_treated_as_absent :
    (∀ o : String, get_query o (some []) none = Except.error SfError.queryInvalid)
    ∧ (∀ (o : String) (limit : Option Int),
        get_query o (some []) limit = get_query o none limit)
    ∧ (∀ (o : String) (fields : Option (List String)),
        get_query o fields (some 0) = get_query o fields none)
    ∧ (∀ fuel http describe sessions base o,
        get_records_list fuel http describe sessions base o (some []) none =
          get_records_list fuel http describe sessions base o none none) :=
  ⟨fun _ => rfl, fun _ _ => rfl, fun _ _ => rfl, fun _ _ _ _ _ _ => rfl⟩

/-- C3: when a continuation cursor is active the target URL is exactly
`<base_url><cursor>`; but when no cursor is active the code does NOT produce
`<base_url>/services/data/v60.0/<query>`: the f-string's backslash
continuation inserts 17 space characters between the base URL and the path,
as evaluated here on the concrete failing input. -/
theorem query_url_inserts_whitespace :
    query_url "https://example.my.salesforce.com"
        "queryAll/?q=SELECT+Id+FROM+Account" none =
      "https://example.my.salesforce.com                 /services/data/v60.0/queryAll/?q=SELECT+Id+FROM+Account"
    ∧ query_url "https://example.my.salesforce.com"
        "queryAll/?q=SELECT+Id+FROM+Account" none ≠
      "https://example.my.salesforce.com/services/data/v60.0/queryAll/?q=SELECT+Id+FROM+Account"
    ∧ (∀ base q c, query_url base q (some c) = base ++ c) :=
  ⟨rfl, by decide, fun _ _ _ => rfl⟩

/-- C1: for every well-formed sequence of paginated responses the executor
returns the concatenation of all pages' records in the order fetched, with
no record duplicated or dropped, a page with no `records` key contributing
the empty list; and on the specification's 2-page scenario the public entry
point returns the records A, B, C in order, each with its `attributes` key
removed. -/
theorem pagination_returns_concatenation :
    (∀ (http : String → String → QueryResponse) (base query : String)
        (sessions : Nat → String) (cur : Option String)
        (pages : List (Option (List Record) × Option String)) (fuel k : Nat),
      Chain http base query cur pages → pages.length ≤ fuel →
      get_rest_query_results fuel http sessions base query cur k =
        Except.ok ((pages.map fun p => p.1.getD []).flatten, k + pages.length))
    ∧ get_records_list 10 http2 describe0 sessions0 base2 "Account"
          (some ["Id", "Name"]) none =
        Except.ok [[("Id", "001A"), ("Name", "Alice")],
                   [("Id", "001B"), ("Name", "Bob")],
                   [("Id", "001C"), ("Name", "Carol")]] :=
  ⟨fun _ _ _ sessions _ _ fuel k hc hf => chain_run sessions hc fuel k hf, rfl⟩

/-- C1 witness: the general part applied to the concrete 2-page chain. -/
theorem pagination_returns_concatenation_witness :
    Chain http2 base2 q2 none
      [(some [recA, recB], some "/cursor2"), (some [recC], none)]
    ∧ ([(some [recA, recB], some "/cursor2"), (some [recC], none)] :
        List (Option (List Record) × Option String)).length ≤ 10
    ∧ get_rest_query_results 10 http2 sessions0 base2 q2 none 0 =
        Except.ok ([recA, recB, recC], 2) :=
  ⟨chain_http2, by simp,
   pagination_returns_concatenation.1 http2 base2 q2 sessions0 none _ 10 0
     chain_http2 (by simp)⟩

/-- C4 counterexample: on the concrete 2-page fetch the executor performs
2 session-id fetches (one per page), not 1: the returned fetch counter,
started at 0, ends at 2. -/
theorem session_fetch_twice_counterexample :
    get_rest_query_results 10 http2 sessions0 base2 q2 none 0 =
      Except.ok ([recA, recB, recC], 2)
    ∧ (2 : Nat) ≠ 1 :=
  ⟨rfl, by decide⟩

/-- C4 amended: within one top-level call the code fetches a session id
once per page, not once per call: over any well-formed chain of pages the
number of `fetch_session_id()` invocations equals the number of pages
fetched. -/
theorem session_fetched_once_per_page :
    ∀ (http : String → String → QueryResponse) (base query : String)
      (sessions : Nat → String) (cur : Option String)
      (pages : List (Option (List Record) × Option String)) (fuel k : Nat),
      Chain http base query cur pages → pages.length ≤ fuel →
      ∃ recs, get_rest_query_results fuel http sessions base query cur k =
        Except.ok (recs, k + pages.length) :=
  fun _ _ _ sessions _ _ fuel k hc hf => ⟨_, chain_run sessions hc fuel k hf⟩

/-- C4 witness: the amended theorem applied to the concrete 2-page chain. -/
theorem session_fetched_once_per_page_witness :
    Chain http2 base2 q2 none
      [(some [recA, recB], some "/cursor2"), (some [recC], none)]
    ∧ ∃ recs, get_rest_query_results 10 http2 sessions0 base2 q2 none 0 =
        Except.ok (recs, 2) :=
  ⟨chain_http2,
   session_fetched_once_per_page http2 base2 q2 sessions0 none _ 10 0
     chain_http2 (by simp)⟩

/-- C5: a well-formed login response body that lacks the namespaced
`Envelope/Body/loginResponse/result/sessionId` node makes
`extract_session_id` print the warning and return an absent value, raising
no exception; `get_session_id` on such a 200-status response returns the
absent id instead of failing. -/
theorem extract_session_id_soft_failure :
    ∀ root : XmlElem, findSessionPath root = [] →
      extract_session_id root = (none, true)
      ∧ ∀ txt, get_session_id { status := 200, text := txt, xml := some root } =
          Except.ok none := by
  intro root h
  constructor
  · simp [extract_session_id, h]
  · intro txt
    simp [get_session_id, extract_session_id, h]

/-- C5 witness: the theorem applied to a concrete envelope without a
sessionId node. -/
theorem findSessionPath_sampleNoSession : findSessionPath sampleNoSession = [] := by
  simp [findSessionPath, sampleNoSession, descendants, childrenTagged,
    XmlElem.tag, XmlElem.children, envelopeTag, bodyTag, loginResponseTag,
    resultTag, sessionIdTag]

/-- C5 witness continued: the theorem applied to that envelope. -/
theorem extract_session_id_soft_failure_witness :
    findSessionPath sampleNoSession = []
    ∧ extract_session_id sampleNoSession = (none, true)
    ∧ get_session_id { status := 200, text := "ok", xml := some sampleNoSession } =
        Except.ok none :=
  ⟨findSessionPath_sampleNoSession,
   (extract_session_id_soft_failure sampleNoSession findSessionPath_sampleNoSession).1,
   (extract_session_id_soft_failure sampleNoSession findSessionPath_sampleNoSession).2 "ok"⟩

/-- C9: when the three configuration keys derived from the uppercased
integration name are all present, `get_credentials` returns the mapping
holding the username, password and security token; when any of the three is
absent it fails with a missing-configuration error (the embedding is a pure
function of the environment, so it has no other effects). -/
theorem get_credentials_spec :
    (∀ (env : String → Option String) (integration u p t : String),
      env (str_upper integration ++ "_USERNAME") = some u →
      env (str_upper integration ++ "_PASSWORD") = some p →
      env (str_upper integration ++ "_SECURITY_TOKEN") = some t →
      get_credentials env integration =
        Except.ok [(integration ++ "_password", p),
                   (integration ++ "_username", u),
                   (integration ++ "_security_token", t)])
    ∧ (∀ (env : String → Option String) (integration : String),
        (env (str_upper integration ++ "_USERNAME") = none ∨
         env (str_upper integration ++ "_PASSWORD") = none ∨
         env (str_upper integration ++ "_SECURITY_TOKEN") = none) →
        ∃ key, env key = none ∧
          get_credentials env integration =
            Except.error (SfError.configurationMissing key)) := by
  constructor
  · intro env integration u p t hu hp ht
    simp [get_credentials, hu, hp, ht]
  · intro env integration h
    cases hpw : env (str_upper integration ++ "_PASSWORD") with
    | none => exact ⟨_, hpw, by simp [get_credentials, hpw]⟩
    | some p =>
      cases hu : env (str_upper integration ++ "_USERNAME") with
      | none => exact ⟨_, hu, by simp [get_credentials, hpw, hu]⟩
      | some u =>
        cases ht : env (str_upper integration ++ "_SECURITY_TOKEN") with
        | none => exact ⟨_, ht, by simp [get_credentials, hpw, hu, ht]⟩
        | some t => rcases h with h | h | h <;> simp_all

/-- C9 witness: both parts applied to concrete environments. -/
theorem get_credentials_spec_witness :
    (env0 (str_upper "salesforce" ++ "_USERNAME") = some "user@example.com"
     ∧ env0 (str_upper "salesforce" ++ "_PASSWORD") = some "hunter2"
     ∧ env0 (str_upper "salesforce" ++ "_SECURITY_TOKEN") = some "tok123"
     ∧ get_credentials env0 "salesforce" =
        Except.ok [("salesforce_password", "hunter2"),
                   ("salesforce_username", "user@example.com"),
                   ("salesforce_security_token", "tok123")])
    ∧ ∃ key, (fun _ => (none : Option String)) key = none ∧
        get_credentials (fun _ => none) "salesforce" =
          Except.error (SfError.configurationMissing key) :=
  ⟨⟨rfl, rfl, rfl,
    get_credentials_spec.1 env0 "salesforce" "user@example.com" "hunter2" "tok123"
      rfl rfl rfl⟩,
   get_credentials_spec.2 (fun _ => none) "salesforce" (Or.inl rfl)⟩

/-- C7: a non-200 response on the login, data-query or describe endpoint
makes the corresponding operation raise an error carrying that response's
status code and body text; the call yields no partial record list, and at
the public entry point a failing data query aborts the whole call with the
same error. -/
theorem non_200_responses_raise :
    (∀ resp : LoginResponse, resp.status ≠ 200 →
      get_session_id resp =
        Except.error (SfError.authenticationFailed resp.status resp.text))
    ∧ (∀ (fuel : Nat) (http : String → String → QueryResponse)
        (sessions : Nat → String) (base query : String) (cur : Option String)
        (k : Nat),
        (http (query_url base query cur) (sessions k)).status ≠ 200 →
        get_rest_query_results (fuel + 1) http sessions base query cur k =
          Except.error (SfError.queryFailed
            (http (query_url base query cur) (sessions k)).status
            (http (query_url base query cur) (sessions k)).text))
    ∧ (∀ resp : DescribeResponse, resp.status ≠ 200 →
        get_field_names resp =
          Except.error (SfError.describeFailed resp.status resp.text))
    ∧ (∀ (fuel : Nat) (http : String → String → QueryResponse)
        (describe : DescribeResponse) (sessions : Nat → String)
        (base o : String) (fields : Option (List String)) (limit : Option Int)
        (q : String) (e : SfError),
        listTruthy fields = true →
        get_query o fields limit = Except.ok q →
        get_rest_query_results fuel http sessions base q none 0 = Except.error e →
        get_records_list fuel http describe sessions base o fields limit =
          Except.error e) := by
  refine ⟨?_, ?_, ?_, ?_⟩
  · intro resp h
    simp [get_session_id, h]
  · intro fuel http sessions base query cur k h
    simp only [get_rest_query_results]
    split
    · rfl
    · next hn => exact absurd h hn
  · intro resp h
    simp [get_field_names, h]
  · intro fuel http describe sessions base o fields limit q e hf hq herr
    simp only [get_records_list, hf, Bool.not_true, Bool.false_and,
      Bool.false_eq_true, if_false, bind, Except.bind]
    simp [hq, herr]

/-- C7 witness: each part applied to a concrete non-200 response. -/
theorem non_200_responses_raise_witness :
    ((401 : Nat) ≠ 200
     ∧ get_session_id { status := 401, text := "INVALID_LOGIN", xml := none } =
        Except.error (SfError.authenticationFailed 401 "INVALID_LOGIN"))
    ∧ ((http401 (query_url base2 q2 none) (sessions0 0)).status ≠ 200
       ∧ get_rest_query_results 1 http401 sessions0 base2 q2 none 0 =
          Except.error (SfError.queryFailed 401 "Session expired or invalid"))
    ∧ ((500 : Nat) ≠ 200
       ∧ get_field_names { status := 500, text := "boom", fields := [] } =
          Except.error (SfError.describeFailed 500 "boom"))
    ∧ (listTruthy (some ["Id"]) = true
       ∧ get_records_list 1 http401 describe0 sessions0 base2 "Account"
            (some ["Id"]) none =
          Except.error (SfError.queryFailed 401 "Session expired or invalid")) :=
  ⟨⟨by decide,
    non_200_responses_raise.1 { status := 401, text := "INVALID_LOGIN", xml := none }
      (by decide)⟩,
   ⟨by decide,
    non_200_responses_raise.2.1 0 http401 sessions0 base2 q2 none 0 (by decide)⟩,
   ⟨by decide,
    non_200_responses_raise.2.2.1 { status := 500, text := "boom", fields := [] }
      (by decide)⟩,
   ⟨by decide,
    non_200_responses_raise.2.2.2 1 http401 describe0 sessions0 base2 "Account"
      (some ["Id"]) none "queryAll/?q=SELECT+Id+FROM+Account"
      (SfError.queryFailed 401 "Session expired or invalid")
      (by decide) rfl rfl⟩⟩

/-- C8: for every input string the standard XML unescaping of the five
predefined entities maps the output of `escape_chars` back to the original
string, and each of the five characters is escaped to its entity. -/
theorem escape_chars_xml_roundtrip :
    (∀ s : List Char, xml_unescape (escape_chars s) = s)
    ∧ escape_chars ['&'] = ['&', 'a', 'm', 'p', ';']
    ∧ escape_chars ['<'] = ['&', 'l', 't', ';']
    ∧ escape_chars ['>'] = ['&', 'g', 't', ';']
    ∧ escape_chars ['\''] = ['&', 'a', 'p', 'o', 's', ';']
    ∧ escape_chars ['"'] = ['&', 'q', 'u', 'o', 't', ';'] :=
  ⟨unescape_escape, by decide, by decide, by decide, by decide, by decide⟩

end SF
